import Mathlib

/-!
Shallow embedding of the ChatterBox service supervisor
(`src/chatterbox_manager.py`) and proofs about its lifecycle operations.

The supervisor is a short-lived, single-threaded program whose behaviour is
determined by its environment: the persisted PID file, the OS process table,
the sequence of answers the health endpoint gives to successive HTTP GETs,
the outcomes of successive subprocess spawns, and the outcomes of the kill
signals it sends.  We model all of that as an explicit state record
`SupState` and translate each Python function into a state-passing Lean
function.  Side effects that matter to the claims (health probes, PID-file
unlink/write, spawns, signals, sleeps) are additionally recorded in an event
trace so that ordering properties can be stated.

Timing idealisation: HTTP requests are treated as instantaneous, so the
polling loop of `wait_for_service` performs one probe every 0.5 s of
elapsed time; sleep durations in the trace are recorded in tenths of a
second (5 = 0.5 s, 20 = 2 s, 10 = 1 s).
-/

/-- Content of the persisted PID record, as seen by
`int(PID_FILE.read_text().strip())`: either a PID that parses, or a read
that raises `ValueError` (unparseable) or `IOError` (unreadable) — the code
always catches those two together, so one constructor covers both. -/
inductive PidContent
  | valid (pid : Nat)
  | invalid
deriving DecidableEq, Repr

/-- Outcome of `psutil.Process(pid)` followed by `proc.cmdline()`:
either the pair raises `NoSuchProcess`/`AccessDenied`, or it yields a
command line which does or does not contain the service script name. -/
inductive ProcCheck
  | raises
  | cmd (isOurs : Bool)
deriving DecidableEq, Repr

/-- Outcome of one `requests.get(SERVICE_URL + "/health")`: the request
raises (connection error, timeout), or returns a response with a status
code, a flag for whether `.json()` succeeds, and the truthiness of the
`model_loaded` field. -/
inductive HealthResult
  | exn
  | resp (status : Nat) (jsonOk : Bool) (modelLoaded : Bool)
deriving DecidableEq, Repr

/-- Outcome of one `subprocess.Popen` call: a child with a fresh PID, or an
exception (e.g. `OSError`) out of the spawn. -/
inductive SpawnResult
  | launched (pid : Nat)
  | fails
deriving DecidableEq, Repr

/-- Outcome of one `os.kill(pid, sig)` call: delivered, or
`ProcessLookupError` because the process is already gone. -/
inductive KillOutcome
  | delivered
  | noProcess
deriving DecidableEq, Repr

/-- Observable events emitted by the supervisor, in program order.
Sleep durations are in tenths of a second. -/
inductive Event
  | probe (r : HealthResult)
  | unlink
  | writePid (pid : Nat)
  | spawned (pid : Nat)
  | termSig (pid : Nat)
  | killSig (pid : Nat)
  | sleep (tenths : Nat)
deriving DecidableEq, Repr

/-- The supervisor's world: the persisted PID file plus oracles for every
environment interaction.  `health` is the stream of answers to successive
health probes (`hIdx` is the cursor); `spawn` the stream of spawn outcomes
(`sIdx` the cursor).  `sigterm pid` / `sigkill pid` give the outcome of
sending that signal to `pid` during `stop_service`, and `aliveAfterTerm pid`
is the `psutil.pid_exists` answer after the 2 s grace period.  `trace`
records the events emitted so far. -/
structure SupState where
  pidFile : Option PidContent
  pidExists : Nat → Bool
  procCheck : Nat → ProcCheck
  health : Nat → HealthResult
  hIdx : Nat
  spawn : Nat → SpawnResult
  sIdx : Nat
  sigterm : Nat → KillOutcome
  aliveAfterTerm : Nat → Bool
  sigkill : Nat → KillOutcome
  trace : List Event

/-- Does a health result have HTTP status 200? (`response.status_code == 200`) -/
def isOk200 : HealthResult → Bool
  | .resp st _ _ => st == 200
  | .exn => false

/-- Readiness test of the `wait_for_service` loop body: status 200, `.json()`
succeeds, and `data.get('model_loaded')` is truthy. -/
def healthReady : HealthResult → Bool
  | .resp st jsonOk ml => st == 200 && jsonOk && ml
  | .exn => false

/-- Delete the PID file (`PID_FILE.unlink()`). -/
def clearPid (s : SupState) : SupState :=
  { s with pidFile := none, trace := s.trace ++ [Event.unlink] }

/-- Perform one health probe, consuming the next response in the stream. -/
def probeOnce (s : SupState) : HealthResult × SupState :=
  (s.health s.hIdx,
   { s with hIdx := s.hIdx + 1, trace := s.trace ++ [Event.probe (s.health s.hIdx)] })

/-- Lines 61–70 of `is_service_running`: probe the endpoint directly; a 200
response means the service runs externally (True), anything else — non-200
or an exception — falls through to `return False`. -/
def externalCheck (s : SupState) : Bool × SupState :=
  (isOk200 (s.health s.hIdx), (probeOnce s).2)

/-- Lines 34–70, `is_service_running`. If a PID is persisted: parse it
(parse/read failure → unlink, fall through), check the process table
(absent → unlink, fall through), inspect the command line (raises or
foreign → unlink, fall through), and finally probe the health endpoint:
200 → True; an exception → False with the PID file kept; a non-200
response falls out of all the conditionals to the line-57 unlink and then
to the external probe.  With no persisted PID the external probe decides. -/
def is_service_running (s : SupState) : Bool × SupState :=
  match s.pidFile with
  | none => externalCheck s
  | some PidContent.invalid => externalCheck (clearPid s)
  | some (PidContent.valid pid) =>
    if s.pidExists pid then
      match s.procCheck pid with
      | ProcCheck.raises => externalCheck (clearPid s)
      | ProcCheck.cmd isOurs =>
        if isOurs then
          match s.health s.hIdx with
          | HealthResult.exn => (false, (probeOnce s).2)
          | HealthResult.resp st _ _ =>
            if st == 200 then (true, (probeOnce s).2)
            else externalCheck (clearPid (probeOnce s).2)
        else externalCheck (clearPid s)
    else externalCheck (clearPid s)

/-- State after one unsuccessful iteration of the polling loop: a probe was
consumed and a 0.5 s sleep performed. -/
def sleepHalf (s : SupState) : SupState :=
  { (probeOnce s).2 with trace := (probeOnce s).2.trace ++ [Event.sleep 5] }

/-- Body of the `wait_for_service` polling loop, with fuel = the number of
half-second slots left before the timeout.  Each iteration probes once and,
if not ready, sleeps 0.5 s and loops. -/
def waitLoop : Nat → SupState → Bool × SupState
  | 0, s => (false, s)
  | fuel + 1, s =>
    if healthReady (s.health s.hIdx) then (true, (probeOnce s).2)
    else waitLoop fuel (sleepHalf s)

/-- Lines 72–85, `wait_for_service(timeout=30)`: poll every 0.5 s while the
elapsed time is below `timeoutSecs`, returning True at the first response
with status 200 and a truthy `model_loaded`. -/
def wait_for_service (timeoutSecs : Nat) (s : SupState) : Bool × SupState :=
  waitLoop (2 * timeoutSecs) s

/-- Errors that escape a supervisor operation as an uncaught Python
exception. -/
inductive SupError
  | spawnFailure
deriving DecidableEq, Repr

/-- State after a successful `subprocess.Popen` plus
`PID_FILE.write_text(str(process.pid))`: the spawn cursor advances and the
new PID is persisted. -/
def spawnedState (s₁ : SupState) (pid : Nat) : SupState :=
  { s₁ with sIdx := s₁.sIdx + 1,
            pidFile := some (PidContent.valid pid),
            trace := s₁.trace ++ [Event.spawned pid, Event.writePid pid] }

/-- Lines 87–119, `start_service`: no-op True if already running; otherwise
spawn (an exception from `Popen` is not caught and propagates), persist the
child's PID, and block in `wait_for_service()` for up to 30 s. -/
def start_service (s : SupState) : Except SupError (Bool × SupState) :=
  if (is_service_running s).1 then Except.ok (true, (is_service_running s).2)
  else
    match (is_service_running s).2.spawn (is_service_running s).2.sIdx with
    | SpawnResult.fails => Except.error SupError.spawnFailure
    | SpawnResult.launched pid =>
      Except.ok (wait_for_service 30 (spawnedState (is_service_running s).2 pid))

/-- Lines 121–155, `stop_service`: False if no PID file; parse the PID
(`ValueError`/`IOError` → log and return False, file left in place);
SIGTERM (already gone → unlink, True); sleep 2 s; if still alive, SIGKILL
(sleep 1 s unless it raises); unlink; True. -/
def stop_service (s : SupState) : Bool × SupState :=
  match s.pidFile with
  | none => (false, s)
  | some PidContent.invalid => (false, s)
  | some (PidContent.valid pid) =>
    match s.sigterm pid with
    | KillOutcome.noProcess =>
      (true, { s with pidFile := none,
                      trace := s.trace ++ [Event.termSig pid, Event.unlink] })
    | KillOutcome.delivered =>
      let s₁ := { s with trace := s.trace ++ [Event.termSig pid, Event.sleep 20] }
      if s.aliveAfterTerm pid then
        let s₂ :=
          match s.sigkill pid with
          | KillOutcome.delivered =>
            { s₁ with trace := s₁.trace ++ [Event.killSig pid, Event.sleep 10] }
          | KillOutcome.noProcess =>
            { s₁ with trace := s₁.trace ++ [Event.killSig pid] }
        (true, { s₂ with pidFile := none, trace := s₂.trace ++ [Event.unlink] })
      else
        (true, { s₁ with pidFile := none, trace := s₁.trace ++ [Event.unlink] })

/-- The fixed 2 s delay between `stop_service()` and `start_service()` in
`restart_service`. -/
def restartDelay (s : SupState) : SupState :=
  { s with trace := s.trace ++ [Event.sleep 20] }

/-- Lines 157–162, `restart_service`: `stop_service()`, `time.sleep(2)`,
then `start_service()` (whose spawn exception, if any, propagates). -/
def restart_service (s : SupState) : Except SupError (Bool × SupState) :=
  start_service (restartDelay (stop_service s).2)

/-- Lines 183–187, `ensure_running`: `start_service()` if not
`is_service_running()`, else True. -/
def ensure_running (s : SupState) : Except SupError (Bool × SupState) :=
  if (is_service_running s).1 then Except.ok (true, (is_service_running s).2)
  else start_service (is_service_running s).2

/-- Events a status check may emit: health probes and PID-file unlinks.
No spawn, no PID write, no signal, no sleep. -/
def isObsEvent : Event → Bool
  | Event.probe _ => true
  | Event.unlink => true
  | _ => false

/-! ### Concrete environments used by the counterexamples and witnesses -/

/-- Quiet baseline environment: no PID file, empty process table, health
endpoint unreachable, spawns fail, signals delivered. -/
def baseState : SupState :=
  { pidFile := none
    pidExists := fun _ => false
    procCheck := fun _ => ProcCheck.raises
    health := fun _ => HealthResult.exn
    hIdx := 0
    spawn := fun _ => SpawnResult.fails
    sIdx := 0
    sigterm := fun _ => KillOutcome.delivered
    aliveAfterTerm := fun _ => false
    sigkill := fun _ => KillOutcome.delivered
    trace := [] }

/-- Stale PID 7 on disk, process table empty, but the health endpoint
answers 200 (service started externally). -/
def exC2 : SupState :=
  { baseState with
    pidFile := some (PidContent.valid 7)
    health := fun _ => HealthResult.resp 200 true true }

/-- Unparseable/unreadable PID record. -/
def exC3 : SupState :=
  { baseState with pidFile := some PidContent.invalid }

/-- Valid PID 9 on disk; process still alive after SIGTERM, so the forced
SIGKILL path runs. -/
def exC5 : SupState :=
  { baseState with
    pidFile := some (PidContent.valid 9)
    aliveAfterTerm := fun _ => true }

/-- Valid PID 3 on disk whose process is already dead when SIGTERM is
sent. -/
def exC10 : SupState :=
  { baseState with
    pidFile := some (PidContent.valid 3)
    sigterm := fun _ => KillOutcome.noProcess }

/-- Persisted PID 5, process alive and running the expected service script,
but the health endpoint answers HTTP 503 on every probe. -/
def exC1 : SupState :=
  { baseState with
    pidFile := some (PidContent.valid 5)
    pidExists := fun _ => true
    procCheck := fun _ => ProcCheck.cmd true
    health := fun _ => HealthResult.resp 503 true false }

/-- Cold environment for a successful start: first probe raises (service
down), spawn yields PID 11, every later probe is ready. -/
def exC6 : SupState :=
  { baseState with
    spawn := fun _ => SpawnResult.launched 11
    health := fun n =>
      if n == 0 then HealthResult.exn else HealthResult.resp 200 true true }

/-- Responsive environment: health endpoint always answers 200 with the
model loaded. -/
def exC7 : SupState :=
  { baseState with health := fun _ => HealthResult.resp 200 true true }

/-- Environment for a restart that reaches the spawn: nothing running, the
spawn yields PID 4, the health endpoint never answers. -/
def exC8 : SupState :=
  { baseState with spawn := fun _ => SpawnResult.launched 4 }

/-- Result of the restart in the `exC8` environment, spelled out so the
witness can name it. -/
def c8res : Bool × SupState :=
  wait_for_service 30
    (spawnedState (is_service_running (restartDelay (stop_service exC8).2)).2 4)

/-- Responsive environment for the C9 witness. -/
def exC9 : SupState :=
  { baseState with health := fun _ => HealthResult.resp 200 true true }

/-! ### Frame lemmas about the state each operation leaves behind -/

/-- A status check ends in one of five ways: a bare external probe, an
unlink followed by the external probe, an early False (probe raised), an
early True (probe answered 200), or — on a non-200 answer — an unlink and
a second, external probe. -/
lemma isr_shape (s : SupState) :
    is_service_running s = externalCheck s ∨
    is_service_running s = externalCheck (clearPid s) ∨
    (is_service_running s = (false, (probeOnce s).2) ∧
      s.health s.hIdx = HealthResult.exn) ∨
    (is_service_running s = (true, (probeOnce s).2) ∧
      ∃ jOk ml, s.health s.hIdx = HealthResult.resp 200 jOk ml) ∨
    is_service_running s = externalCheck (clearPid (probeOnce s).2) := by
  rcases hpf : s.pidFile with _ | pc
  · exact Or.inl (by simp [is_service_running, hpf])
  cases pc with
  | invalid => exact Or.inr (Or.inl (by simp [is_service_running, hpf]))
  | valid pid =>
    by_cases he : s.pidExists pid = true
    · cases hc : s.procCheck pid with
      | raises =>
        exact Or.inr (Or.inl (by simp [is_service_running, hpf, he, hc]))
      | cmd isOurs =>
        cases isOurs with
        | false =>
          exact Or.inr (Or.inl (by simp [is_service_running, hpf, he, hc]))
        | true =>
          cases hr : s.health s.hIdx with
          | exn =>
            exact Or.inr (Or.inr (Or.inl
              ⟨by simp [is_service_running, hpf, he, hc, hr], rfl⟩))
          | resp st jOk ml =>
            by_cases hst : st = 200
            · subst hst
              exact Or.inr (Or.inr (Or.inr (Or.inl
                ⟨by simp [is_service_running, hpf, he, hc, hr], jOk, ml, rfl⟩)))
            · refine Or.inr (Or.inr (Or.inr (Or.inr ?_)))
              have hbe : (st == 200) = false := by simp [hst]
              simp [is_service_running, hpf, he, hc, hr, hbe]
    · have he' : s.pidExists pid = false := by simpa using he
      exact Or.inr (Or.inl (by simp [is_service_running, hpf, he']))

/-- A status check touches only the PID file, the probe cursor and the
trace: every environment oracle and the spawn cursor are unchanged. -/
lemma isr_frame (s : SupState) :
    (is_service_running s).2.pidExists = s.pidExists ∧
    (is_service_running s).2.procCheck = s.procCheck ∧
    (is_service_running s).2.health = s.health ∧
    (is_service_running s).2.spawn = s.spawn ∧
    (is_service_running s).2.sIdx = s.sIdx ∧
    (is_service_running s).2.sigterm = s.sigterm ∧
    (is_service_running s).2.aliveAfterTerm = s.aliveAfterTerm ∧
    (is_service_running s).2.sigkill = s.sigkill := by
  rcases isr_shape s with h | h | ⟨h, -⟩ | ⟨h, -⟩ | h <;>
    rw [h] <;> simp [externalCheck, probeOnce, clearPid]

/-- A status check only appends probe and unlink events to the trace. -/
lemma isr_trace (s : SupState) :
    ∃ t, (is_service_running s).2.trace = s.trace ++ t ∧
      ∀ e ∈ t, isObsEvent e = true := by
  rcases isr_shape s with h | h | ⟨h, -⟩ | ⟨h, -⟩ | h <;> rw [h]
  · exact ⟨[Event.probe (s.health s.hIdx)],
      by simp [externalCheck, probeOnce], by simp [isObsEvent]⟩
  · exact ⟨[Event.unlink, Event.probe (s.health s.hIdx)],
      by simp [externalCheck, probeOnce, clearPid], by simp [isObsEvent]⟩
  · exact ⟨[Event.probe (s.health s.hIdx)],
      by simp [probeOnce], by simp [isObsEvent]⟩
  · exact ⟨[Event.probe (s.health s.hIdx)],
      by simp [probeOnce], by simp [isObsEvent]⟩
  · exact ⟨[Event.probe (s.health s.hIdx), Event.unlink,
            Event.probe (s.health (s.hIdx + 1))],
      by simp [externalCheck, probeOnce, clearPid], by simp [isObsEvent]⟩

lemma sleepHalf_health (s : SupState) : (sleepHalf s).health = s.health := by
  simp [sleepHalf, probeOnce]

lemma sleepHalf_hIdx (s : SupState) : (sleepHalf s).hIdx = s.hIdx + 1 := by
  simp [sleepHalf, probeOnce]

lemma sleepHalf_trace (s : SupState) :
    (sleepHalf s).trace
      = s.trace ++ [Event.probe (s.health s.hIdx), Event.sleep 5] := by
  simp [sleepHalf, probeOnce]

/-- The polling loop reports readiness exactly when one of its remaining
probe slots answers with status 200 and a truthy model-ready flag. -/
lemma waitLoop_fst (n : Nat) : ∀ s : SupState,
    ((waitLoop n s).1 = true ↔
      ∃ i, i < n ∧ healthReady (s.health (s.hIdx + i)) = true) := by
  induction n with
  | zero => intro s; simp [waitLoop]
  | succ n ih =>
    intro s
    unfold waitLoop
    by_cases h : healthReady (s.health s.hIdx) = true
    · rw [if_pos h]
      exact iff_of_true rfl ⟨0, Nat.succ_pos n, by simpa using h⟩
    · rw [if_neg h, ih (sleepHalf s)]
      constructor
      · rintro ⟨i, hi, hr⟩
        rw [sleepHalf_health, sleepHalf_hIdx] at hr
        refine ⟨i + 1, by omega, ?_⟩
        have harith : s.hIdx + 1 + i = s.hIdx + (i + 1) := by omega
        rwa [harith] at hr
      · rintro ⟨i, hi, hr⟩
        cases i with
        | zero => exact absurd (by simpa using hr) h
        | succ j =>
          refine ⟨j, by omega, ?_⟩
          rw [sleepHalf_health, sleepHalf_hIdx]
          have harith : s.hIdx + 1 + j = s.hIdx + (j + 1) := by omega
          rwa [harith]

/-- The polling loop only appends events to the trace. -/
lemma waitLoop_trace (n : Nat) : ∀ s : SupState,
    ∃ t, (waitLoop n s).2.trace = s.trace ++ t := by
  induction n with
  | zero => intro s; exact ⟨[], by simp [waitLoop]⟩
  | succ n ih =>
    intro s
    unfold waitLoop
    by_cases h : healthReady (s.health s.hIdx) = true
    · rw [if_pos h]
      exact ⟨[Event.probe (s.health s.hIdx)], by simp [probeOnce]⟩
    · rw [if_neg h]
      obtain ⟨t, ht⟩ := ih (sleepHalf s)
      exact ⟨[Event.probe (s.health s.hIdx), Event.sleep 5] ++ t,
        by rw [ht, sleepHalf_trace]; simp⟩

/-- A successful `start_service` only appends events to the trace. -/
lemma start_service_trace (s : SupState) (r : Bool) (s' : SupState)
    (h : start_service s = Except.ok (r, s')) :
    ∃ t, s'.trace = s.trace ++ t := by
  unfold start_service at h
  by_cases hr : (is_service_running s).1 = true
  · rw [if_pos hr] at h
    obtain ⟨t, ht, _⟩ := isr_trace s
    exact ⟨t, by cases h; exact ht⟩
  · rw [if_neg hr] at h
    obtain ⟨t₀, ht₀, _⟩ := isr_trace s
    cases hspawn : (is_service_running s).2.spawn (is_service_running s).2.sIdx with
    | fails => rw [hspawn] at h; cases h
    | launched pid =>
      rw [hspawn] at h
      have h2 : wait_for_service 30 (spawnedState (is_service_running s).2 pid)
          = (r, s') := by injection h
      have hs' : s'
          = (waitLoop 60 (spawnedState (is_service_running s).2 pid)).2 := by
        rw [show waitLoop 60 (spawnedState (is_service_running s).2 pid)
              = wait_for_service 30 (spawnedState (is_service_running s).2 pid)
            from rfl, h2]
      obtain ⟨t₁, ht₁⟩ :=
        waitLoop_trace 60 (spawnedState (is_service_running s).2 pid)
      refine ⟨t₀ ++ [Event.spawned pid, Event.writePid pid] ++ t₁, ?_⟩
      have hsp : (spawnedState (is_service_running s).2 pid).trace
          = (is_service_running s).2.trace
            ++ [Event.spawned pid, Event.writePid pid] := by
        simp [spawnedState]
      rw [hs', ht₁, hsp, ht₀]
      simp

/-- `stop_service` never emits a spawn or PID-write event. -/
lemma stop_service_trace (s : SupState) :
    ∃ t, (stop_service s).2.trace = s.trace ++ t ∧
      ∀ e ∈ t, (∀ p, e ≠ Event.spawned p) ∧ (∀ p, e ≠ Event.writePid p) := by
  rcases hpf : s.pidFile with _ | pc
  · exact ⟨[], by simp [stop_service, hpf], by simp⟩
  cases pc with
  | invalid => exact ⟨[], by simp [stop_service, hpf], by simp⟩
  | valid pid =>
    cases hk : s.sigterm pid with
    | noProcess =>
      refine ⟨[Event.termSig pid, Event.unlink], ?_, ?_⟩
      · simp [stop_service, hpf, hk]
      · intro e he
        fin_cases he <;> simp
    | delivered =>
      by_cases ha : s.aliveAfterTerm pid = true
      · cases hk2 : s.sigkill pid with
        | delivered =>
          refine ⟨[Event.termSig pid, Event.sleep 20, Event.killSig pid,
                   Event.sleep 10, Event.unlink], ?_, ?_⟩
          · simp [stop_service, hpf, hk, ha, hk2]
          · intro e he
            fin_cases he <;> simp
        | noProcess =>
          refine ⟨[Event.termSig pid, Event.sleep 20, Event.killSig pid,
                   Event.unlink], ?_, ?_⟩
          · simp [stop_service, hpf, hk, ha, hk2]
          · intro e he
            fin_cases he <;> simp
      · refine ⟨[Event.termSig pid, Event.sleep 20, Event.unlink], ?_, ?_⟩
        · simp [stop_service, hpf, hk, ha]
        · intro e he
          fin_cases he <;> simp

/-- A true verdict from the external probe pins the response to HTTP 200. -/
lemma externalCheck_true (s : SupState) (h : (externalCheck s).1 = true) :
    ∃ jOk ml, s.health s.hIdx = HealthResult.resp 200 jOk ml := by
  cases hr : s.health s.hIdx with
  | exn => simp [externalCheck, isOk200, hr] at h
  | resp st jOk ml =>
    simp [externalCheck, isOk200, hr] at h
    subst h
    exact ⟨jOk, ml, rfl⟩

/-- Probe and unlink events are neither spawns nor PID writes. -/
lemma obsEvent_not_spawn (e : Event) (h : isObsEvent e = true) :
    (∀ p, e ≠ Event.spawned p) ∧ (∀ p, e ≠ Event.writePid p) := by
  cases e <;> simp_all [isObsEvent]

/-! ### Claim theorems -/

/-- C2, counterexample: with PID 7 persisted and no such process, but the
health endpoint answering 200 (externally started service),
`is_service_running` returns true — the claim says it returns false in
every such state. -/
theorem c2_counterexample :
    exC2.pidFile = some (PidContent.valid 7) ∧
    exC2.pidExists 7 = false ∧
    (is_service_running exC2).1 = true := by
  refine ⟨rfl, rfl, ?_⟩
  decide

/-- C2 (amended): when a PID is persisted but its process is not in the
process table, `is_service_running` clears the persisted PID record, and
its result is the verdict of the follow-up external health probe — false
unless that probe answers HTTP 200. -/
theorem c2_stale_pid_cleared (s : SupState) (p : Nat)
    (hpf : s.pidFile = some (PidContent.valid p))
    (hdead : s.pidExists p = false) :
    (is_service_running s).2.pidFile = none ∧
    (is_service_running s).1 = isOk200 (s.health s.hIdx) := by
  simp [is_service_running, hpf, hdead, externalCheck, clearPid, probeOnce]

/-- C2 witness: the amended theorem applied to the concrete stale-PID
state. -/
theorem c2_stale_pid_cleared_witness :
    (is_service_running exC2).2.pidFile = none ∧
    (is_service_running exC2).1 = isOk200 (exC2.health exC2.hIdx) :=
  c2_stale_pid_cleared exC2 7 (by decide) (by decide)

/-- C3, counterexample: on an unparseable PID record `stop_service` does
return the non-fatal failure result False, but it leaves the state — in
particular the persisted PID record — completely unchanged, whereas the
claim says the record is deleted. -/
theorem c3_counterexample :
    stop_service exC3 = (false, exC3) ∧
    exC3.pidFile = some PidContent.invalid := by
  constructor
  · rfl
  · rfl

/-- C3 (amended): when the persisted PID record cannot be parsed or read,
`stop_service` returns the non-fatal failure result False and leaves the
state, including the PID record, unchanged. -/
theorem c3_invalid_pid_keeps_record (s : SupState)
    (h : s.pidFile = some PidContent.invalid) :
    stop_service s = (false, s) := by
  simp [stop_service, h]

/-- C3 witness: the amended theorem applied to the concrete corrupt-record
state. -/
theorem c3_invalid_pid_keeps_record_witness :
    stop_service exC3 = (false, exC3) :=
  c3_invalid_pid_keeps_record exC3 (by decide)

/-- C5: on any state with a parseable persisted PID, `stop_service`
returns True and the persisted PID record is gone afterwards, on the
graceful path, the forced-kill path, and the already-dead path alike. -/
theorem c5_stop_clears_pid (s : SupState) (p : Nat)
    (h : s.pidFile = some (PidContent.valid p)) :
    (stop_service s).1 = true ∧ (stop_service s).2.pidFile = none := by
  cases hk : s.sigterm p with
  | noProcess => simp [stop_service, h, hk]
  | delivered =>
    by_cases ha : s.aliveAfterTerm p = true
    · cases hk2 : s.sigkill p <;> simp [stop_service, h, hk, ha, hk2]
    · have ha' : s.aliveAfterTerm p = false := by simpa using ha
      simp [stop_service, h, hk, ha']

/-- C5 witness: the theorem applied to a state that takes the forced-kill
path. -/
theorem c5_stop_clears_pid_witness :
    (stop_service exC5).1 = true ∧ (stop_service exC5).2.pidFile = none :=
  c5_stop_clears_pid exC5 9 (by decide)

/-- C10: when the persisted PID is valid but its process is already dead at
the moment SIGTERM is sent (the signal raises `ProcessLookupError`),
`stop_service` deletes the persisted PID record and returns True. -/
theorem c10_dead_process_stop_succeeds (s : SupState) (p : Nat)
    (hpf : s.pidFile = some (PidContent.valid p))
    (hgone : s.sigterm p = KillOutcome.noProcess) :
    (stop_service s).1 = true ∧ (stop_service s).2.pidFile = none := by
  simp [stop_service, hpf, hgone]

/-- C10 witness: the theorem applied to the concrete already-dead state. -/
theorem c10_dead_process_stop_succeeds_witness :
    (stop_service exC10).1 = true ∧ (stop_service exC10).2.pidFile = none :=
  c10_dead_process_stop_succeeds exC10 3 (by decide) (by decide)


/-- C1: evaluation at the failing input.  With a live, matching PID and a
non-200 health response, the code falls past all the conditionals to the
line-57 `PID_FILE.unlink()`: it does return False here, but the persisted
PID record is cleared, not left unchanged as the claim (and the comment
above line 57, and spec P4) require. -/
theorem c1_nonok_response_clears_pid :
    exC1.pidFile = some (PidContent.valid 5) ∧
    exC1.pidExists 5 = true ∧
    exC1.procCheck 5 = ProcCheck.cmd true ∧
    exC1.health exC1.hIdx = HealthResult.resp 503 true false ∧
    (is_service_running exC1).1 = false ∧
    (is_service_running exC1).2.pidFile = none := by
  refine ⟨rfl, rfl, rfl, rfl, ?_, ?_⟩ <;> decide

/-- C4, counterexample: in the quiet environment (service down, health
endpoint unreachable) with the spawn failing, `start_service` does not
return an explicit failure result — the `subprocess.Popen` exception
propagates uncaught. -/
theorem c4_counterexample :
    start_service baseState = Except.error SupError.spawnFailure := rfl

/-- C4 (amended): `is_service_running` and `stop_service` always return a
Boolean result, but `start_service` lets a spawn failure escape as an
uncaught exception: it raises exactly when the service is not already
running and the `subprocess.Popen` call fails. -/
theorem c4_spawn_error_iff (s : SupState) :
    start_service s = Except.error SupError.spawnFailure ↔
      ((is_service_running s).1 = false ∧
        s.spawn s.sIdx = SpawnResult.fails) := by
  obtain ⟨-, -, -, hspawn, hsidx, -, -, -⟩ := isr_frame s
  by_cases hr : (is_service_running s).1 = true
  · constructor
    · intro h
      exfalso
      unfold start_service at h
      rw [if_pos hr] at h
      cases h
    · rintro ⟨hf, -⟩
      rw [hr] at hf
      cases hf
  · have hf : (is_service_running s).1 = false := by simpa using hr
    unfold start_service
    rw [if_neg hr, hspawn, hsidx]
    cases hsp : s.spawn s.sIdx with
    | fails => simp [hf]
    | launched pid => simp [hf, hsp]


/-- C6: starting a non-running service returns a result, and that result is
True exactly when one of the 60 polls (every 0.5 s within the 30 s
timeout, counted from the probe cursor left by the initial status check)
answers HTTP 200 with a truthy model-ready flag; otherwise the
not-yet-ready outcome False is returned. -/
theorem c6_start_polls_until_ready (s : SupState) (p : Nat)
    (hcold : (is_service_running s).1 = false)
    (hspawn : s.spawn s.sIdx = SpawnResult.launched p) :
    ∃ r s', start_service s = Except.ok (r, s') ∧
      (r = true ↔ ∃ i, i < 60 ∧
        healthReady (s.health ((is_service_running s).2.hIdx + i)) = true) := by
  obtain ⟨-, -, hhealth, hsp, hsidx, -, -, -⟩ := isr_frame s
  have hr : ¬ (is_service_running s).1 = true := by simp [hcold]
  unfold start_service
  rw [if_neg hr, hsp, hsidx, hspawn]
  refine ⟨_, _, rfl, ?_⟩
  have hwl := waitLoop_fst 60 (spawnedState (is_service_running s).2 p)
  have hX1 : (spawnedState (is_service_running s).2 p).health = s.health := by
    simp [spawnedState, hhealth]
  have hX2 : (spawnedState (is_service_running s).2 p).hIdx
      = (is_service_running s).2.hIdx := by
    simp [spawnedState]
  rw [hX1, hX2] at hwl
  exact hwl

/-- C6 witness: the theorem applied to the cold-start environment with
PID 11 and readiness from the second probe on. -/
theorem c6_start_polls_until_ready_witness :
    ∃ r s', start_service exC6 = Except.ok (r, s') ∧
      (r = true ↔ ∃ i, i < 60 ∧
        healthReady (exC6.health ((is_service_running exC6).2.hIdx + i))
          = true) :=
  c6_start_polls_until_ready exC6 11 (by decide) (by decide)


/-- C7: when `is_service_running` reports true, `ensure_running` returns
success with exactly the status check's state: the spawn cursor is
untouched and the events added during the call contain no spawn and no
PID-record write. -/
theorem c7_ensure_noop_when_running (s : SupState)
    (h : (is_service_running s).1 = true) :
    ensure_running s = Except.ok (true, (is_service_running s).2) ∧
    (is_service_running s).2.sIdx = s.sIdx ∧
    ∃ t, (is_service_running s).2.trace = s.trace ++ t ∧
      ∀ e ∈ t, (∀ p, e ≠ Event.spawned p) ∧ (∀ p, e ≠ Event.writePid p) := by
  obtain ⟨-, -, -, -, hsidx, -, -, -⟩ := isr_frame s
  refine ⟨?_, hsidx, ?_⟩
  · unfold ensure_running
    rw [if_pos h]
  · obtain ⟨t, ht, hobs⟩ := isr_trace s
    exact ⟨t, ht, fun e he => obsEvent_not_spawn e (hobs e he)⟩

/-- C7 witness: the theorem applied to the responsive environment. -/
theorem c7_ensure_noop_when_running_witness :
    ensure_running exC7 = Except.ok (true, (is_service_running exC7).2) ∧
    (is_service_running exC7).2.sIdx = exC7.sIdx ∧
    ∃ t, (is_service_running exC7).2.trace = exC7.trace ++ t ∧
      ∀ e ∈ t, (∀ p, e ≠ Event.spawned p) ∧ (∀ p, e ≠ Event.writePid p) :=
  c7_ensure_noop_when_running exC7 (by decide)


/-- C8: whenever `restart_service` returns a result, the final trace is the
initial trace, then the stop sequence's events (which contain no spawn),
then the fixed 2 s delay, then whatever `start_service` emitted: every
spawn of the new process comes after the completed stop sequence and the
delay. -/
theorem c8_restart_stop_before_spawn (s : SupState) (r : Bool)
    (s' : SupState) (h : restart_service s = Except.ok (r, s')) :
    ∃ t₁ t₂, s'.trace = s.trace ++ t₁ ++ [Event.sleep 20] ++ t₂ ∧
      (∀ e ∈ t₁, ∀ p, e ≠ Event.spawned p) ∧
      (stop_service s).2.trace = s.trace ++ t₁ := by
  obtain ⟨t₁, ht₁, hno⟩ := stop_service_trace s
  unfold restart_service at h
  obtain ⟨t₂, ht₂⟩ := start_service_trace _ r s' h
  refine ⟨t₁, t₂, ?_, fun e he p => (hno e he).1 p, ht₁⟩
  rw [ht₂]
  have hrd : (restartDelay (stop_service s).2).trace
      = (stop_service s).2.trace ++ [Event.sleep 20] := by
    simp [restartDelay]
  rw [hrd, ht₁]


/-- C8 witness: the theorem applied to the concrete restart run. -/
theorem c8_restart_stop_before_spawn_witness :
    ∃ t₁ t₂, c8res.2.trace = exC8.trace ++ t₁ ++ [Event.sleep 20] ++ t₂ ∧
      (∀ e ∈ t₁, ∀ p, e ≠ Event.spawned p) ∧
      (stop_service exC8).2.trace = exC8.trace ++ t₁ :=
  c8_restart_stop_before_spawn exC8 c8res.1 c8res.2 rfl


/-- C9: whenever `is_service_running` returns true, some health probe made
during that very call answered HTTP 200 — a live matching PID alone never
yields true. -/
theorem c9_true_implies_observed_200 (s : SupState)
    (h : (is_service_running s).1 = true) :
    ∃ t, (is_service_running s).2.trace = s.trace ++ t ∧
      ∃ jOk ml, Event.probe (HealthResult.resp 200 jOk ml) ∈ t := by
  rcases isr_shape s with hs | hs | ⟨hs, hexn⟩ | ⟨hs, jOk, ml, hok⟩ | hs
  · rw [hs] at h ⊢
    obtain ⟨jOk, ml, hr⟩ := externalCheck_true s h
    refine ⟨[Event.probe (s.health s.hIdx)],
      by simp [externalCheck, probeOnce], jOk, ml, ?_⟩
    rw [hr]
    simp
  · rw [hs] at h ⊢
    obtain ⟨jOk, ml, hr⟩ := externalCheck_true (clearPid s) h
    have hcp : (clearPid s).health (clearPid s).hIdx = s.health s.hIdx := by
      simp [clearPid]
    rw [hcp] at hr
    refine ⟨[Event.unlink, Event.probe (s.health s.hIdx)],
      by simp [externalCheck, probeOnce, clearPid], jOk, ml, ?_⟩
    rw [hr]
    simp
  · rw [hs] at h
    simp at h
  · rw [hs] at h ⊢
    refine ⟨[Event.probe (s.health s.hIdx)], by simp [probeOnce], jOk, ml, ?_⟩
    rw [hok]
    simp
  · rw [hs] at h ⊢
    obtain ⟨jOk, ml, hr⟩ := externalCheck_true (clearPid (probeOnce s).2) h
    have hcp : (clearPid (probeOnce s).2).health (clearPid (probeOnce s).2).hIdx
        = s.health (s.hIdx + 1) := by
      simp [clearPid, probeOnce]
    rw [hcp] at hr
    refine ⟨[Event.probe (s.health s.hIdx), Event.unlink,
             Event.probe (s.health (s.hIdx + 1))],
      by simp [externalCheck, probeOnce, clearPid], jOk, ml, ?_⟩
    rw [hr]
    simp

/-- C9 witness: the theorem applied to the responsive environment. -/
theorem c9_true_implies_observed_200_witness :
    ∃ t, (is_service_running exC9).2.trace = exC9.trace ++ t ∧
      ∃ jOk ml, Event.probe (HealthResult.resp 200 jOk ml) ∈ t :=
  c9_true_implies_observed_200 exC9 (by decide)
